import Mathlib

/-!
Verification development for the ZVG foreclosure-listing backend
(`app/app.py` and `zvg-app/backend/server.py`).

The Python sources are shallowly embedded as executable Lean functions.
Conventions used throughout:

* Fallible Python code (`try`/`except`, functions that may return `None`)
  is modelled with `Option`; the embedded functions are total, so a
  Python exception that is caught and turned into `None` corresponds to
  a `none` result here.
* Python strings are modelled as Lean `String`s.  Character classes
  (`str.isdigit`-like tests, `\d`, whitespace) are modelled over the
  ASCII range plus the German umlaut letters, which covers the
  alphabet the program actually manipulates.
* Python `dict`s are modelled as association lists with
  insert-or-overwrite (`dictSet`) and first-match lookup (`dictGet`),
  which reproduces `dict.__setitem__` / `dict.get`.
* Wall-clock instants (`time.time()`) are modelled as integers, and
  `datetime.datetime` values as a record of integer fields.
-/

set_option maxRecDepth 100000
set_option maxHeartbeats 1000000

/-! ## Python string and integer primitives -/

/-- Whitespace characters recognised by `str.strip()` / `str.split()`
(the ASCII set: space, tab, newline, carriage return, vertical tab,
form feed). -/
def pyWsChar (c : Char) : Bool :=
  c = ' ' || c = '\t' || c = '\n' || c = '\r' || c = '\x0b' || c = '\x0c'

/-- Python `str.strip()`: remove leading and trailing whitespace. -/
def pyStrip (s : String) : String :=
  String.mk (((s.toList.dropWhile pyWsChar).reverse.dropWhile pyWsChar).reverse)

/-- Helper for `pySplitWs`: accumulate the current word (reversed) while
scanning the character list. -/
def splitWsGo : List Char → List Char → List String
  | acc, [] => [String.mk acc.reverse]
  | acc, c :: cs =>
    if pyWsChar c then String.mk acc.reverse :: splitWsGo [] cs
    else splitWsGo (c :: acc) cs

/-- Python `str.split()` with no separator: split on whitespace runs,
dropping empty pieces. -/
def pySplitWs (s : String) : List String :=
  (splitWsGo [] s.toList).filter (· ≠ "")

/-- Python `str.lower()` restricted to ASCII letters and the German
umlaut letters (the only alphabet this program lowercases). -/
def pyLowerChar (c : Char) : Char :=
  if 'A' ≤ c && c ≤ 'Z' then Char.ofNat (c.toNat + 32)
  else if c = 'Ä' then 'ä'
  else if c = 'Ö' then 'ö'
  else if c = 'Ü' then 'ü'
  else c

def pyLower (s : String) : String := String.mk (s.toList.map pyLowerChar)

/-- Python `str.upper()` restricted to ASCII letters and the German
umlaut letters. -/
def pyUpperChar (c : Char) : Char :=
  if 'a' ≤ c && c ≤ 'z' then Char.ofNat (c.toNat - 32)
  else if c = 'ä' then 'Ä'
  else if c = 'ö' then 'Ö'
  else if c = 'ü' then 'Ü'
  else c

def pyUpper (s : String) : String := String.mk (s.toList.map pyUpperChar)

/-- Python `s.split(sep)` for a one-character separator (the only kind
this program uses): keeps empty pieces, `"".split(sep) == [""]`. -/
def splitOnCharList (sep : Char) : List Char → List (List Char)
  | [] => [[]]
  | c :: cs =>
    if c = sep then [] :: splitOnCharList sep cs
    else
      match splitOnCharList sep cs with
      | [] => [[c]]
      | g :: gs => (c :: g) :: gs

def pySplitChar (sep : Char) (s : String) : List String :=
  (splitOnCharList sep s.toList).map String.mk

/-- Python `s.replace(pat, repl)` (left-to-right, non-overlapping),
written with a fuel argument so that it is structurally recursive; the
fuel is the input length, which suffices because every step consumes at
least one input character (the program never replaces an empty
pattern). -/
def replaceFuel (pat repl : List Char) : Nat → List Char → List Char
  | 0, cs => cs
  | _ + 1, [] => []
  | n + 1, c :: cs =>
    if pat.isPrefixOf (c :: cs) then
      repl ++ replaceFuel pat repl n ((c :: cs).drop pat.length)
    else c :: replaceFuel pat repl n cs

def pyReplace (s pat repl : String) : String :=
  String.mk (replaceFuel pat.toList repl.toList s.toList.length s.toList)

/-- Python `s.endswith(post)`. -/
def strEndsWith (s post : String) : Bool := post.toList.isSuffixOf s.toList

/-- Python `s[:-n]` (drop the last `n` characters). -/
def strDropRight (s : String) (n : Nat) : String :=
  String.mk (s.toList.take (s.toList.length - n))

/-- Python `' '.join(xs)`. -/
def joinSpace : List String → String
  | [] => ""
  | [x] => x
  | x :: xs => x ++ " " ++ joinSpace xs

/-- Python substring test `needle in hay` on character lists. -/
def containsSub (hay needle : List Char) : Bool :=
  match hay with
  | [] => needle.isEmpty
  | _ :: t => needle.isPrefixOf hay || containsSub t needle

/-- Python `s2 in s1` for strings. -/
def strContains (hay needle : String) : Bool :=
  containsSub hay.toList needle.toList

/-- Digit-sequence part of Python `int(str)`: ASCII digits, with single
underscores allowed between digits (PEP 515).  Returns the value. -/
def pyDigitsCore : Nat → List Char → Option Nat
  | acc, [] => some acc
  | acc, '_' :: c :: cs =>
    if c.isDigit then pyDigitsCore (acc * 10 + (c.toNat - 48)) cs else none
  | _, ['_'] => none
  | acc, c :: cs =>
    if c.isDigit then pyDigitsCore (acc * 10 + (c.toNat - 48)) cs else none

/-- Unsigned part of Python `int(str)`: nonempty, must start with a digit. -/
def pyIntNat : List Char → Option Nat
  | [] => none
  | '_' :: _ => none
  | cs => pyDigitsCore 0 cs

/-- Python `int(str)`: strip surrounding whitespace, optional sign,
ASCII digits (with PEP 515 underscores).  `none` models the
`ValueError` raised on any other input. -/
def pyInt (s : String) : Option Int :=
  match (pyStrip s).toList with
  | '+' :: rest => (pyIntNat rest).map (fun n => (n : Int))
  | '-' :: rest => (pyIntNat rest).map (fun n => -(n : Int))
  | rest => (pyIntNat rest).map (fun n => (n : Int))

/-! ## Python dict model -/

/-- A Python `dict` with `String` keys, as an association list. -/
abbrev Dict (α : Type) := List (String × α)

/-- `d.get(k)` / `d[k]` lookup. -/
def dictGet {α : Type} (m : Dict α) (k : String) : Option α :=
  (m.find? (fun kv => kv.1 == k)).map (fun kv => kv.2)

/-- `d[k] = v`: overwrite in place if the key exists, else append
(insertion order preserved, as in CPython). -/
def dictSet {α : Type} (m : Dict α) (k : String) (v : α) : Dict α :=
  if m.any (fun kv => kv.1 == k) then
    m.map (fun kv => if kv.1 == k then (k, v) else kv)
  else m ++ [(k, v)]

/-! ## Dates and datetimes (`datetime.datetime`, naive) -/

structure PyDateTime where
  year : Int
  month : Int
  day : Int
  hour : Int
  minute : Int
  deriving DecidableEq

structure PyDate where
  year : Int
  month : Int
  day : Int
  deriving DecidableEq

def isLeap (y : Int) : Bool :=
  (Int.emod y 4 == 0 && Int.emod y 100 != 0) || Int.emod y 400 == 0

def daysInMonth (y m : Int) : Int :=
  if m = 2 then (if isLeap y then 29 else 28)
  else if m = 4 ∨ m = 6 ∨ m = 9 ∨ m = 11 then 30
  else 31

/-- The `datetime.datetime(year, month, day, hour, minute)` constructor:
validates all fields (raising, i.e. `none`, on out-of-range values). -/
def mkDatetime (year month day hour minute : Int) : Option PyDateTime :=
  if 1 ≤ year ∧ year ≤ 9999 ∧ 1 ≤ month ∧ month ≤ 12 ∧
     1 ≤ day ∧ day ≤ daysInMonth year month ∧
     0 ≤ hour ∧ hour ≤ 23 ∧ 0 ≤ minute ∧ minute ≤ 59 then
    some ⟨year, month, day, hour, minute⟩
  else none

/-- `datetime.date()` projection of a datetime. -/
def dtDate (dt : PyDateTime) : PyDate := ⟨dt.year, dt.month, dt.day⟩

/-- Python `date` comparison (lexicographic on year, month, day). -/
def dateLt (a b : PyDate) : Bool :=
  a.year < b.year ∨ (a.year = b.year ∧
    (a.month < b.month ∨ (a.month = b.month ∧ a.day < b.day)))

/-- Days since the civil epoch 1970-01-01 of a proleptic Gregorian date
(Howard Hinnant's `days_from_civil`, written with floor division). -/
def daysFromCivil (y m d : Int) : Int :=
  let y' := if m ≤ 2 then y - 1 else y
  let era := Int.fdiv y' 400
  let yoe := y' - era * 400
  let mp := Int.emod (m + 9) 12
  let doy := Int.fdiv (153 * mp + 2) 5 + d - 1
  let doe := yoe * 365 + Int.fdiv yoe 4 - Int.fdiv yoe 100 + doy
  era * 146097 + doe - 719468

/-- Inverse of `daysFromCivil` (`civil_from_days`). -/
def civilFromDays (z0 : Int) : Int × Int × Int :=
  let z := z0 + 719468
  let era := Int.fdiv z 146097
  let doe := z - era * 146097
  let yoe := Int.fdiv (doe - Int.fdiv doe 1460 + Int.fdiv doe 36524 - Int.fdiv doe 146096) 365
  let y := yoe + era * 400
  let doy := doe - (365 * yoe + Int.fdiv yoe 4 - Int.fdiv yoe 100)
  let mp := Int.fdiv (5 * doy + 2) 153
  let d := doy - Int.fdiv (153 * mp + 2) 5 + 1
  let m := mp + (if mp < 10 then 3 else -9)
  (if m ≤ 2 then y + 1 else y, m, d)

/-- `date + datetime.timedelta(days = n)` (then `.date()`): shift a
calendar date by a whole number of days. -/
def dateAddDays (d : PyDate) (n : Int) : PyDate :=
  let c := civilFromDays (daysFromCivil d.year d.month d.day + n)
  ⟨c.1, c.2.1, c.2.2⟩

def pad2 (n : Int) : String := (if n < 10 then "0" else "") ++ toString n

def pad4 (n : Int) : String :=
  (if n < 10 then "000" else if n < 100 then "00" else if n < 1000 then "0" else "")
    ++ toString n

/-- `datetime.strftime('%Y-%m-%d')`. -/
def fmtDate (d : PyDate) : String :=
  pad4 d.year ++ "-" ++ pad2 d.month ++ "-" ++ pad2 d.day

/-- `datetime.strftime('%H:%M')`. -/
def fmtTime (dt : PyDateTime) : String := pad2 dt.hour ++ ":" ++ pad2 dt.minute

/-! ## GermanDateParser

Both sources define the same class; the embedded functions below follow
`app/app.py` lines 29-48 (= `server.py` lines 70-103), split into the
stages of the Python method.  Any failing stage makes the whole parse
return `none`, exactly as the surrounding `try`/`except` does. -/

namespace GermanDateParser

/-- The fixed 12-entry month table. -/
def MONTHS : List (String × Int) :=
  [("Januar", 1), ("Februar", 2), ("März", 3), ("April", 4),
   ("Mai", 5), ("Juni", 6), ("Juli", 7), ("August", 8),
   ("September", 9), ("Oktober", 10), ("November", 11), ("Dezember", 12)]

/-- `MONTHS.get(month_name)`. -/
def monthsGet (name : String) : Option Int := dictGet MONTHS name

/-- Stage for `parts[1]`: strip, remove `.`, whitespace-split into
exactly three tokens, convert day and year with `int`, look up the
month (which may be unknown, hence the inner `Option`). -/
def parseDMY (second : String) : Option (Int × Option Int × Int) :=
  match pySplitWs (pyReplace (pyStrip second) "." "") with
  | [dayS, monthS, yearS] =>
    match pyInt dayS, pyInt yearS with
    | some day, some year => some (day, monthsGet monthS, year)
    | _, _ => none
  | _ => none

/-- Stage for `parts[2]`: strip, drop a trailing case-insensitive
`"Uhr"`, split on `:` into exactly two numeric tokens. -/
def parseHM (third : String) : Option (Int × Int) :=
  let t0 := pyStrip third
  let t1 := if strEndsWith (pyLower t0) "uhr" then pyStrip (strDropRight t0 3) else t0
  match pySplitChar ':' t1 with
  | [hS, mS] =>
    match pyInt hS, pyInt mS with
    | some h, some mi => some (h, mi)
    | _, _ => none
  | _ => none

/-- `GermanDateParser.parse`: split on commas, require at least three
segments, parse day/month/year from the second and the time from the
third, and build a (validated) datetime.  An unknown month name leaves
`month = None`, and `datetime.datetime(year, None, day, ...)` raises,
which the catch-all turns into `None`. -/
def parse (s : String) : Option PyDateTime :=
  match pySplitChar ',' s with
  | _ :: second :: third :: _ =>
    match parseDMY second with
    | some (day, mo?, year) =>
      match parseHM third with
      | some (h, mi) =>
        match mo? with
        | some mo => mkDatetime year mo day h mi
        | none => none
      | none => none
    | none => none
  | _ => none

end GermanDateParser

/-- A structural deviation from the expected pattern
`<weekday>, <day>. <month name> <year>, <hour>:<minute> Uhr`:
fewer than three comma segments, a second segment that does not
whitespace-split into exactly three tokens after removing dots, a
non-numeric day or year, an unknown month name, a time segment that
does not split on `:` into exactly two tokens, or a non-numeric hour
or minute. -/
def structuralDeviation (s : String) : Bool :=
  match pySplitChar ',' s with
  | _ :: second :: third :: _ =>
    match GermanDateParser.parseDMY second with
    | some (_, mo?, _) => mo?.isNone || (GermanDateParser.parseHM third).isNone
    | none => true
  | _ => true

/-- A string that matches the expected shape in every respect (three
comma segments, numeric day/year/hour/minute) except that its month
name is not one of the twelve German month names. -/
def wellFormedUnknownMonth (s : String) : Bool :=
  match pySplitChar ',' s with
  | _ :: second :: third :: _ =>
    match GermanDateParser.parseDMY second with
    | some (_, mo?, _) => mo?.isNone && (GermanDateParser.parseHM third).isSome
    | none => false
  | _ => false

/-! ## Data model

`Land` is the scraper's jurisdiction record (only the fields this
program reads: the canonical name and the two-letter short code).
`ObjektEntry` carries the fields the search pipeline consumes; every
one of them may be absent (`None`) upstream.  The provider may also
yield records that are not `ObjektEntry` at all (`isinstance` check in
both loops), modelled by `RawEntry.other`. -/

structure Land where
  name : String
  short : String
  deriving DecidableEq

structure Adresse where
  strasse : Option String
  plz : Option String
  ort : Option String
  deriving DecidableEq

structure ObjektEntry where
  zvg_id : String
  termin_as_date : Option PyDateTime
  termin_as_str : Option String
  art_der_versteigerung : Option String
  objekt_lage : Option String
  beschreibung : Option String
  adresse : Option Adresse
  deriving DecidableEq

inductive RawEntry where
  | objekt (e : ObjektEntry)
  | other
  deriving DecidableEq

/-- One result row of `/api/search` (field order as in the JSON). -/
structure Listing where
  id : String
  date : String
  time : String
  street : String
  houseNumbers : String
  zip : String
  city : String
  state : String
  auctionType : String
  propertyType : String
  deriving DecidableEq

/-! ## Keyword classifier (`determine_property_type`) -/

/-- `app/app.py` lines 81-87: the fixed property-type keyword table. -/
def property_keywords : List (String × List String) :=
  [("Reihenhaus", ["reihenhaus"]),
   ("Doppelhaushälfte", ["doppelhaushälfte", "doppelhaushaelfte", "doppelhaus"]),
   ("Einfamilienhaus", ["einfamilienhaus"]),
   ("Wohn- und Geschäftshaus",
    ["wohn- und geschäftshaus", "wohn- und geschaeftshaus",
     "wohn-und geschäftshaus", "wohn-und geschaeftshaus"]),
   ("Gewerbeeinheit", ["gewerbeeinheit", "gewerbefläche", "gewerbeobjekt"])]

/-- `server.py` lines 152-158: the same table, with a duplicated
`'doppelhaushaelfte'` literal exactly as in the source. -/
def propertyKeywordsSrv : List (String × List String) :=
  [("Reihenhaus", ["reihenhaus"]),
   ("Doppelhaushälfte", ["doppelhaushälfte", "doppelhaushaelfte", "doppelhaushaelfte", "doppelhaus"]),
   ("Einfamilienhaus", ["einfamilienhaus"]),
   ("Wohn- und Geschäftshaus",
    ["wohn- und geschäftshaus", "wohn- und geschaeftshaus",
     "wohn-und geschäftshaus", "wohn-und geschaeftshaus"]),
   ("Gewerbeeinheit", ["gewerbeeinheit", "gewerbefläche", "gewerbeobjekt"])]

/-- `table.get(ptype, [])`. -/
def tableGet (table : List (String × List String)) (k : String) : List String :=
  (dictGet table k).getD []

/-- `determine_property_type(text, selected)` (`app/app.py` 89-95,
`server.py` 188-200): return the first selected label one of whose
keywords occurs in the text, else `None`. -/
def determine_property_type (table : List (String × List String)) (text : String) :
    List String → Option String
  | [] => none
  | ptype :: rest =>
    if (tableGet table ptype).any (fun kw => strContains text kw) then some ptype
    else determine_property_type table text rest

/-- The property-type block of the search loop (`app/app.py` 136-142):
with no requested types the label stays `''` and nothing is filtered;
otherwise classify, and drop the entry when the result is falsy
(`None`, or the empty string — Python's `if not p`). -/
def propertyStage (table : List (String × List String)) (text : String)
    (property_types : List String) : Option String :=
  if property_types.isEmpty then some ""
  else
    match determine_property_type table text property_types with
    | some p => if p = "" then none else some p
    | none => none

/-! ## Address decomposition

`app/app.py` 149-163 (= `server.py` 258-277).  The structured branch
applies `re.match(r'^([^\d]+?)\s*(\d.*)?$', street)`.  Semantics of
that pattern (Python `re`): `[^\d]+?` needs at least one leading
non-digit, so the match fails if the street is empty or starts with a
digit; otherwise group 2, when present, must start at the first digit
(everything before the first digit is non-digit, and whitespace cannot
include a digit) and `.` cannot cross a newline while `$` matches at
the end or just before a final newline — so a match with group 2
exists exactly when the suffix from the first digit has no newline
other than possibly its last character.  Group 1 plus the `\s*` gap is
everything before the first digit, so after `.strip()` the used values
are the stripped prefix before the first digit and the stripped suffix
from it. -/

/-- Index of the first character for which `\d` matches. -/
def firstDigitIdx : List Char → Option Nat
  | [] => none
  | c :: cs => if c.isDigit then some 0 else (firstDigitIdx cs).map (· + 1)

/-- Whether `(\d.*)?$` can cover the suffix that starts at the first
digit: no interior newline (one trailing newline is allowed because
`$` also matches just before a final newline). -/
def regexTailOk (tail : List Char) : Bool :=
  !(tail.contains '\n') || (tail.getLast? == some '\n' && !(tail.dropLast.contains '\n'))

/-- The structured-street branch: `re.match` + the two `.strip()`ed
groups; when the pattern cannot match, `street` is left unchanged and
the house-number token stays `''`. -/
def decomposeStreet (street : String) : String × String :=
  match firstDigitIdx street.toList with
  | none => if street.toList.isEmpty then (street, "") else (pyStrip street, "")
  | some 0 => (street, "")
  | some (d + 1) =>
    if regexTailOk (street.toList.drop (d + 1)) then
      (pyStrip (String.mk (street.toList.take (d + 1))),
       pyStrip (String.mk (street.toList.drop (d + 1))))
    else (street, "")

/-- The whole address block of the `app.py` loop: structured branch
when `entry.adresse` is set, else the comma-split fallback on
`objekt_lage`.  Returns (street, houseNumbers, zip, city). -/
def addressOf (e : ObjektEntry) : String × String × String × String :=
  match e.adresse with
  | some a =>
    let street0 := a.strasse.getD ""
    let pr := decomposeStreet street0
    (pr.1, pr.2, a.plz.getD "", a.ort.getD "")
  | none =>
    match pySplitChar ',' (e.objekt_lage.getD "") with
    | [] => ("", "", "", "")
    | p0 :: rest =>
      (pyStrip p0,
       (match rest with
        | [] => ""
        | p1 :: _ => (pySplitWs (pyStrip p1)).headD ""),
       "", "")

/-! ## Search pipeline of `app/app.py` -/

/-- Timestamp determination (`app/app.py` 126): prefer the structured
`termin_as_date`, else parse the free-text `termin_as_str` when it is
non-empty (Python truthiness of the string). -/
def determineTimestamp (e : ObjektEntry) : Option PyDateTime :=
  match e.termin_as_date with
  | some dt => some dt
  | none =>
    match e.termin_as_str with
    | some s => if s = "" then none else GermanDateParser.parse s
    | none => none

/-- `' '.join(filter(None, [objekt_lage or '', beschreibung or ''])).lower()`. -/
def combinedText (e : ObjektEntry) : String :=
  pyLower (joinSpace (([e.objekt_lage.getD "", e.beschreibung.getD ""]).filter (· ≠ "")))

/-- The body of the per-entry loop of `app/app.py` `search`
(lines 122-176): date gate, auction-type filter, property-type filter,
address decomposition, then the assembled result row.  `none` means
the entry is skipped (`continue`). -/
def processEntry (state : String) (auction_types property_types : List String)
    (min_date : PyDate) (e : ObjektEntry) : Option Listing :=
  match determineTimestamp e with
  | none => none
  | some dt =>
    if dateLt (dtDate dt) min_date then none
    else
      let art := pyStrip (e.art_der_versteigerung.getD "")
      if (!auction_types.isEmpty) && (art != "") && (!auction_types.contains art) then none
      else
        match propertyStage property_keywords (combinedText e) property_types with
        | none => none
        | some prop =>
          let addr := addressOf e
          some ⟨e.zvg_id, fmtDate (dtDate dt), fmtTime dt, addr.1, addr.2.1,
                addr.2.2.1, addr.2.2.2, state, art, prop⟩

/-! ## Jurisdiction registry of `app/app.py` (lines 57-79) -/

/-- The `short2full` literal. -/
def short2full : Dict String :=
  [("bw", "baden-wuerttemberg"), ("by", "bayern"), ("be", "berlin"),
   ("br", "brandenburg"), ("hb", "bremen"), ("hh", "hamburg"), ("he", "hessen"),
   ("mv", "mecklenburg-vorpommern"), ("ni", "niedersachsen"),
   ("nw", "nordrhein-westfalen"), ("rp", "rheinland-pfalz"), ("sl", "saarland"),
   ("sn", "sachsen"), ("st", "sachsen-anhalt"), ("sh", "schleswig-holstein"),
   ("th", "thueringen")]

/-- One iteration of the `for land in portal.get_laender()` loop that
builds `state_map`.  `variants` is a Python set; since every one of
its members is written with the same value (the current `land`), the
set's iteration order does not affect the resulting dict, so a plain
list (with possible duplicates) is an equivalent model. -/
def appRegisterLand (m : Dict Land) (land : Land) : Dict Land :=
  let lname := pyLower land.name
  let m := dictSet m lname land
  let variants : List String :=
    [lname,
     pyReplace (pyReplace (pyReplace lname "ue" "ü") "oe" "ö") "ae" "ä",
     pyReplace (pyReplace (pyReplace lname "ü" "ue") "ö" "oe") "ä" "ae"]
    ++ short2full.map (fun kv => kv.1)
  variants.foldl (fun acc v => dictSet acc ((dictGet short2full v).getD v) land) m

/-- The module-level `state_map`, built once from the provider's
enumeration. -/
def appStateMap (lands : List Land) : Dict Land := lands.foldl appRegisterLand []

/-- Jurisdiction resolution in `app.py`'s `search` (lines 106-108):
first the normalized form (strip, lower, umlauts to digraphs), then —
via `or` — the merely stripped-and-lowered input. -/
def appResolve (m : Dict Land) (state : String) : Option Land :=
  let s := pyReplace (pyReplace (pyReplace (pyLower (pyStrip state)) "ü" "ue") "ö" "oe") "ä" "ae"
  match dictGet m s with
  | some land => some land
  | none => dictGet m (pyLower (pyStrip state))

/-- `app/app.py`'s `/api/search` endpoint (lines 101-182).  The raw
entry provider (`portal.list`) is the external collaborator, passed in
as a function.  `Except.error (400, msg)` models
`HTTPException(status_code=400, detail=msg)`. -/
def search (lands : List Land) (provider : Land → List RawEntry)
    (state auctionTypes propertyTypes : String) (minDays : Int) (now : PyDateTime) :
    Except (Nat × String) (List Listing) :=
  match appResolve (appStateMap lands) state with
  | none => Except.error (400, "Unbekanntes Bundesland: " ++ state)
  | some land =>
    let auction_types := (pySplitChar ',' auctionTypes).filter (· ≠ "")
    let property_types := (pySplitChar ',' propertyTypes).filter (· ≠ "")
    let min_date := dateAddDays (dtDate now) minDays
    Except.ok ((provider land).filterMap (fun raw =>
      match raw with
      | RawEntry.objekt e => processEntry state auction_types property_types min_date e
      | RawEntry.other => none))

/-! ## `zvg-app/backend/server.py`: ZVGBackend -/

namespace ZVGBackend

/-- `_fix_encoding` (`server.py` 160-172): empty/absent text becomes
`''`; text containing a mojibake marker is run through a
latin-1/utf-8 re-decode; other text passes through.  The byte-level
re-decode itself is outside the string model, so it is taken as a
function parameter `roundtrip` (instantiated with `id` in concrete
statements, which is its value on marker-free ASCII text anyway). -/
def fixEncoding (roundtrip : String → String) (s : String) : String :=
  if s = "" then ""
  else if s.toList.contains 'Ã' || s.toList.contains 'Â' then roundtrip s
  else s

/-- One per-jurisdiction cache slot: `{'ts': ..., 'entries': ...}`. -/
structure CacheSlot where
  ts : Int
  entries : List RawEntry
  deriving DecidableEq

/-- `int(os.environ.get('ZVG_CACHE_TTL', '1800'))` (`server.py` 113):
the TTL in seconds, default 1800, overridable through the
environment; `none` models the uncaught `ValueError` on a non-numeric
override. -/
def cacheTtl (env : Option String) : Option Int := pyInt (env.getD "1800")

/-- `_get_entries_cached` (`server.py` 174-186), with the wall clock
(`now`, seconds) and the provider's would-be answer (`fetched`) made
explicit.  Returns the served entries, the updated cache dict, and
the number of upstream `portal.list` calls made (0 or 1). -/
def getEntriesCached (ttl now : Int) (cache : Dict CacheSlot) (landName : String)
    (fetched : List RawEntry) : List RawEntry × Dict CacheSlot × Nat :=
  match dictGet cache landName with
  | some slot =>
    if now - slot.ts < ttl then (slot.entries, cache, 0)
    else (fetched, dictSet cache landName ⟨now, fetched⟩, 1)
  | none => (fetched, dictSet cache landName ⟨now, fetched⟩, 1)

/-- One iteration of the registry-building loop in `ZVGBackend.__init__`
(`server.py` 115-149): canonical name, the umlaut variant (digraphs
`ae/oe/ue` replaced, capitalised forms included), the ASCII variant,
each inserted only if not already present, then the uppercase short
code.  (`name_variants` is a Python set, but every member is inserted
with the same value under an only-if-absent guard, so a list with
duplicates yields the same dict.)  The conditional
`if ascii_umlaut in variant` before each `replace` is a no-op guard,
since replacing an absent substring already does nothing. -/
def registerLand (m : Dict Land) (land : Land) : Dict Land :=
  let m := dictSet m land.name land
  let variant :=
    pyReplace (pyReplace (pyReplace (pyReplace (pyReplace (pyReplace
      land.name "ae" "ä") "oe" "ö") "ue" "ü") "Ae" "Ä") "Oe" "Ö") "Ue" "Ü"
  let variant2 :=
    pyReplace (pyReplace (pyReplace (pyReplace (pyReplace (pyReplace
      land.name "ä" "ae") "ö" "oe") "ü" "ue") "Ä" "Ae") "Ö" "Oe") "Ü" "Ue"
  let m := [variant, variant2, land.name].foldl
    (fun acc nm => if (dictGet acc nm).isSome then acc else dictSet acc nm land) m
  let su := pyUpper land.short
  if (dictGet m su).isSome then m else dictSet m su land

/-- `self.state_map` after `__init__`. -/
def stateMap (lands : List Land) : Dict Land := lands.foldl registerLand []

/-- The per-entry body of `ZVGBackend.search`'s loop (`server.py`
220-295).  Identical in structure to `app.py`'s, but every text field
first passes through `_fix_encoding`, and the keyword table is
`propertyKeywordsSrv`. -/
def processEntry (roundtrip : String → String) (state : String)
    (auction_types property_types : List String) (min_date : PyDate)
    (e : ObjektEntry) : Option Listing :=
  let fix := fixEncoding roundtrip
  let auction_dt :=
    match e.termin_as_date with
    | some dt => some dt
    | none =>
      match e.termin_as_str with
      | some s => if s = "" then none else GermanDateParser.parse (fix s)
      | none => none
  match auction_dt with
  | none => none
  | some dt =>
    if dateLt (dtDate dt) min_date then none
    else
      let art := fix (pyStrip (e.art_der_versteigerung.getD ""))
      if (!auction_types.isEmpty) && (art != "") && (!auction_types.contains art) then none
      else
        let objekt_lage := fix (e.objekt_lage.getD "")
        let beschreibung := fix (e.beschreibung.getD "")
        let combined_text := pyLower (joinSpace (([objekt_lage, beschreibung]).filter (· ≠ "")))
        match propertyStage propertyKeywordsSrv combined_text property_types with
        | none => none
        | some prop_type =>
          let addr : String × String × String × String :=
            match e.adresse with
            | some a =>
              let pr := decomposeStreet (fix (a.strasse.getD ""))
              (pr.1, pr.2, fix (a.plz.getD ""), fix (a.ort.getD ""))
            | none =>
              match pySplitChar ',' objekt_lage with
              | [] => ("", "", "", "")
              | p0 :: rest =>
                (pyStrip p0,
                 (match rest with
                  | [] => ""
                  | p1 :: _ => (pySplitWs (pyStrip p1)).headD ""),
                 "", "")
          some ⟨e.zvg_id, fmtDate (dtDate dt), fmtTime dt, addr.1, addr.2.1,
                addr.2.2.1, addr.2.2.2, state, art, prop_type⟩

/-- `ZVGBackend.search` (`server.py` 202-296).  Resolution is a single
exact `state_map.get(state)`; an unresolved state returns the (empty)
`results` list — the function has no error channel.  `entriesFor`
stands for `self._get_entries_cached(land)` (the cache itself is
modelled by `getEntriesCached` above). -/
def search (state_map : Dict Land) (roundtrip : String → String)
    (entriesFor : Land → List RawEntry) (state : String)
    (auction_types property_types : List String) (min_days : Int)
    (now : PyDateTime) : List Listing :=
  match dictGet state_map state with
  | none => []
  | some land =>
    let min_date := dateAddDays (dtDate now) min_days
    (entriesFor land).filterMap (fun raw =>
      match raw with
      | RawEntry.objekt e => processEntry roundtrip state auction_types property_types min_date e
      | RawEntry.other => none)

end ZVGBackend

/-- The `minDays` handling of `RequestHandler.do_GET` (`server.py`
320-326): take the first value of the `minDays` query parameter
(default `'0'` when absent), convert with `int`, and fall back to `0`
on `ValueError`.  The request never fails on this field: the function
is total. -/
def doGetMinDays (params : List (String × String)) : Int :=
  let min_days_str := ((params.find? (fun kv => kv.1 == "minDays")).map (fun kv => kv.2)).getD "0"
  match pyInt min_days_str with
  | some n => n
  | none => 0

/-! ## Concrete fixtures used in closed statements -/

def landBW : Land := ⟨"Baden-Wuerttemberg", "bw"⟩

def landBY : Land := ⟨"Bayern", "by"⟩

/-- A two-jurisdiction provider enumeration (names and short codes as
the zvg portal supplies them), enough to exhibit the registry
behaviour. -/
def lands2 : List Land := [landBW, landBY]

def nowEx : PyDateTime := ⟨2025, 10, 12, 0, 0⟩

/-- A cache slot last refreshed at wall-clock second 0. -/
def slotEx : ZVGBackend.CacheSlot := ⟨0, [RawEntry.other]⟩

/-- An entry carrying only a structured auction timestamp. -/
def entryC4 : ObjektEntry :=
  ⟨"Z1", some ⟨2030, 1, 1, 10, 0⟩, none, none, none, none, none⟩

/-! ## Claims -/

/-- C1: evaluation of both jurisdiction registries on the enumeration
`lands2`.  In `app.py`, every iteration of the loop writes all sixteen
`short2full` full names for the *current* land, so after the loop the
canonical name `"Baden-Wuerttemberg"` resolves to the *Bayern* handle,
and the uppercase short code `"BW"` (never registered as a key — only
full names are written) resolves to nothing; this contradicts the
claim.  In `server.py`, canonical name, umlaut variant, ASCII-digraph
variant and uppercase short code all resolve to the right handle, and
`"Atlantis"` fails, as the claim states. -/
theorem c1_registry_eval :
    appResolve (appStateMap lands2) "Baden-Wuerttemberg" = some landBY ∧
    appResolve (appStateMap lands2) "Baden-Württemberg" = some landBY ∧
    appResolve (appStateMap lands2) "BW" = none ∧
    dictGet (ZVGBackend.stateMap lands2) "Baden-Wuerttemberg" = some landBW ∧
    dictGet (ZVGBackend.stateMap lands2) "Baden-Württemberg" = some landBW ∧
    dictGet (ZVGBackend.stateMap lands2) "BW" = some landBW ∧
    dictGet (ZVGBackend.stateMap lands2) "Bayern" = some landBY ∧
    dictGet (ZVGBackend.stateMap lands2) "BY" = some landBY ∧
    dictGet (ZVGBackend.stateMap lands2) "Atlantis" = none := by
  decide

/-- C2, counterexample: the standalone backend's `search` answers the
unresolved state `"Atlantis"` with the empty result list — no error of
any kind (its return type has no error channel) — refuting "the
request ... is never silently answered with a default or empty result
list". -/
theorem c2_counterexample :
    dictGet (ZVGBackend.stateMap lands2) "Atlantis" = none ∧
    ZVGBackend.search (ZVGBackend.stateMap lands2) id (fun _ => []) "Atlantis" [] [] 0 nowEx
      = [] := by
  decide

/-- C2, amended: in the FastAPI app (`app.py`), a state string that
resolves in neither pass terminates the request with a 400 error whose
detail echoes the offending input; the standalone backend
(`server.py`) instead silently returns an empty result list for an
unresolved state. -/
theorem c2_unresolved_state_amended :
    (∀ (lands : List Land) (provider : Land → List RawEntry)
       (state auctionTypes propertyTypes : String) (minDays : Int) (now : PyDateTime),
      appResolve (appStateMap lands) state = none →
      search lands provider state auctionTypes propertyTypes minDays now =
        Except.error (400, "Unbekanntes Bundesland: " ++ state)) ∧
    (∀ (m : Dict Land) (rt : String → String) (ef : Land → List RawEntry)
       (state : String) (ats pts : List String) (md : Int) (now : PyDateTime),
      dictGet m state = none →
      ZVGBackend.search m rt ef state ats pts md now = []) := by
  constructor
  · intro lands provider state a p md now h
    unfold search
    rw [h]
  · intro m rt ef state ats pts md now h
    unfold ZVGBackend.search
    rw [h]

theorem c2_witness :
    search lands2 (fun _ => []) "Atlantis" "" "" 0 nowEx =
      Except.error (400, "Unbekanntes Bundesland: Atlantis") ∧
    ZVGBackend.search (ZVGBackend.stateMap lands2) id (fun _ => []) "Atlantis" [] [] 0 nowEx
      = [] :=
  ⟨c2_unresolved_state_amended.1 lands2 (fun _ => []) "Atlantis" "" "" 0 nowEx (by decide),
   c2_unresolved_state_amended.2 (ZVGBackend.stateMap lands2) id (fun _ => [])
     "Atlantis" [] [] 0 nowEx (by decide)⟩

/-- C3: the entry cache.  While a slot's age is below the TTL a fetch
returns the stored entries, leaves the cache unchanged and makes no
upstream call; once the TTL has elapsed (or no slot exists) a fetch
makes exactly one upstream call and replaces the slot's entries and
refresh timestamp wholesale.  The TTL defaults to 1800 seconds and is
overridable through the environment. -/
theorem c3_cache_ttl :
    (∀ (ttl now : Int) (cache : Dict ZVGBackend.CacheSlot) (key : String)
       (fetched : List RawEntry) (slot : ZVGBackend.CacheSlot),
      dictGet cache key = some slot →
        (now - slot.ts < ttl →
          ZVGBackend.getEntriesCached ttl now cache key fetched = (slot.entries, cache, 0)) ∧
        (¬ now - slot.ts < ttl →
          ZVGBackend.getEntriesCached ttl now cache key fetched =
            (fetched, dictSet cache key ⟨now, fetched⟩, 1))) ∧
    (∀ (ttl now : Int) (cache : Dict ZVGBackend.CacheSlot) (key : String)
       (fetched : List RawEntry),
      dictGet cache key = none →
      ZVGBackend.getEntriesCached ttl now cache key fetched =
        (fetched, dictSet cache key ⟨now, fetched⟩, 1)) ∧
    ZVGBackend.cacheTtl none = some 1800 ∧
    (∀ (s : String) (n : Int), pyInt s = some n → ZVGBackend.cacheTtl (some s) = some n) := by
  refine ⟨?_, ?_, by decide, ?_⟩
  · intro ttl now cache key fetched slot h
    constructor
    · intro hlt
      simp [ZVGBackend.getEntriesCached, h, hlt]
    · intro hge
      simp [ZVGBackend.getEntriesCached, h, hge]
  · intro ttl now cache key fetched h
    simp [ZVGBackend.getEntriesCached, h]
  · intro s n h
    unfold ZVGBackend.cacheTtl
    simpa using h

theorem c3_witness :
    ZVGBackend.getEntriesCached 1800 100 [("Bayern", slotEx)] "Bayern" []
      = ([RawEntry.other], [("Bayern", slotEx)], 0) ∧
    ZVGBackend.getEntriesCached 1800 2000 [("Bayern", slotEx)] "Bayern" []
      = ([], [("Bayern", ⟨2000, []⟩)], 1) :=
  ⟨by have h := (c3_cache_ttl.1 1800 100 [("Bayern", slotEx)] "Bayern" [] slotEx
        (by decide)).1 (by decide)
      simpa using h,
   by have h := (c3_cache_ttl.1 1800 2000 [("Bayern", slotEx)] "Bayern" [] slotEx
        (by decide)).2 (by decide)
      simpa using h⟩

/-- C8: `minDays` handling in `do_GET`: whenever every value supplied
for the `minDays` query parameter is non-numeric — and in particular
when the parameter is absent, vacuously — the effective value is 0;
the function is total, so the request never fails on this field. -/
theorem c8_minDays_default (params : List (String × String))
    (h : ∀ kv ∈ params, kv.1 = "minDays" → pyInt kv.2 = none) :
    doGetMinDays params = 0 := by
  unfold doGetMinDays
  cases hf : params.find? (fun kv => kv.1 == "minDays") with
  | none => rfl
  | some kv =>
    have hmem := List.mem_of_find?_eq_some hf
    have hpred := List.find?_some hf
    have hnone : pyInt kv.2 = none := h kv hmem (by simpa using hpred)
    simp [hnone]

theorem c8_witness :
    doGetMinDays [("minDays", "abc")] = 0 ∧ doGetMinDays [] = 0 :=
  ⟨c8_minDays_default [("minDays", "abc")] (by decide),
   c8_minDays_default [] (by decide)⟩

/-- C9: the two worked examples of the spec, plus: any string that is
well-formed except for an unknown month name parses to failure (the
month lookup yields `None` and `datetime.datetime(year, None, ...)`
raises into the catch-all). -/
theorem c9_parser_examples :
    GermanDateParser.parse "Montag, 07. August 2025, 10:00 Uhr" = some ⟨2025, 8, 7, 10, 0⟩ ∧
    GermanDateParser.parse "Dienstag, 1. Januar 2024, 9:05 Uhr" = some ⟨2024, 1, 1, 9, 5⟩ ∧
    ∀ s : String, wellFormedUnknownMonth s = true → GermanDateParser.parse s = none := by
  refine ⟨by decide, by decide, ?_⟩
  intro s h
  unfold wellFormedUnknownMonth at h
  unfold GermanDateParser.parse
  cases hp : pySplitChar ',' s with
  | nil => rfl
  | cons p0 t0 =>
    rw [hp] at h
    cases t0 with
    | nil => simp at h
    | cons p1 t1 =>
      cases t1 with
      | nil => simp at h
      | cons p2 t2 =>
        dsimp only at h ⊢
        cases hd : GermanDateParser.parseDMY p1 with
        | none => rfl
        | some trip =>
          rw [hd] at h
          obtain ⟨day, mo?, year⟩ := trip
          dsimp only at h ⊢
          cases hm : GermanDateParser.parseHM p2 with
          | none => rfl
          | some hmv =>
            rw [hm] at h
            cases mo? with
            | none => rfl
            | some mo => simp at h

/-- C5: every structurally deviating input makes the parser return a
failure result.  (The embedded parser is a total function, so — like
the Python original, whose body is wrapped in a catch-all
`try`/`except` returning `None` — it can never propagate a fault.) -/
theorem c5_parser_never_raises (s : String)
    (h : structuralDeviation s = true) : GermanDateParser.parse s = none := by
  unfold structuralDeviation at h
  unfold GermanDateParser.parse
  cases hp : pySplitChar ',' s with
  | nil => rfl
  | cons p0 t0 =>
    rw [hp] at h
    cases t0 with
    | nil => rfl
    | cons p1 t1 =>
      cases t1 with
      | nil => rfl
      | cons p2 t2 =>
        dsimp only at h ⊢
        cases hd : GermanDateParser.parseDMY p1 with
        | none => rfl
        | some trip =>
          rw [hd] at h
          obtain ⟨day, mo?, year⟩ := trip
          dsimp only at h ⊢
          cases hm : GermanDateParser.parseHM p2 with
          | none => rfl
          | some hmv =>
            rw [hm] at h
            cases mo? with
            | none => rfl
            | some mo => simp at h

theorem c5_witness :
    GermanDateParser.parse "Montag, 07. August 2025" = none ∧
    GermanDateParser.parse "Montag, xx. August 2025, 10:00 Uhr" = none ∧
    GermanDateParser.parse "Montag, 07. Nebelung 2025, 10:00 Uhr" = none ∧
    GermanDateParser.parse "Montag, 07. August 2025, 10-00 Uhr" = none :=
  ⟨c5_parser_never_raises "Montag, 07. August 2025" (by decide),
   c5_parser_never_raises "Montag, xx. August 2025, 10:00 Uhr" (by decide),
   c5_parser_never_raises "Montag, 07. Nebelung 2025, 10:00 Uhr" (by decide),
   c5_parser_never_raises "Montag, 07. August 2025, 10-00 Uhr" (by decide)⟩

/-- `determine_property_type` is the first-match search over the
candidate list, in caller order. -/
theorem determine_eq_find (table : List (String × List String)) (text : String) :
    ∀ sel : List String,
      determine_property_type table text sel =
        sel.find? (fun p => (tableGet table p).any (fun kw => strContains text kw)) := by
  intro sel
  induction sel with
  | nil => rfl
  | cons p rest ih =>
    unfold determine_property_type
    by_cases hc : ((tableGet table p).any fun kw => strContains text kw) = true
    · simp [hc]
    · simp [hc, ih]

/-- C6: with an empty candidate list the property-type label is the
empty string and the entry passes the stage (never excluded on these
grounds); with a non-empty list the stage yields exactly the first
candidate, in caller order, whose keyword set matches the text
(`List.find?`), and excludes the entry when that search fails. -/
theorem c6_property_classifier :
    (∀ text : String, propertyStage property_keywords text [] = some "") ∧
    (∀ (text : String) (sel : List String), sel ≠ [] →
      propertyStage property_keywords text sel =
        sel.find? (fun p => (tableGet property_keywords p).any (fun kw => strContains text kw))) := by
  constructor
  · intro text; rfl
  · intro text sel hne
    cases sel with
    | nil => exact absurd rfl hne
    | cons p rest =>
      unfold propertyStage
      rw [determine_eq_find]
      simp only [List.isEmpty_cons, Bool.false_eq_true, if_false]
      cases hf : List.find?
          (fun q => (tableGet property_keywords q).any fun kw => strContains text kw)
          (p :: rest) with
      | none => rfl
      | some q =>
        have hq := List.find?_some hf
        have hqne : ¬ q = "" := by
          intro he
          subst he
          rw [show tableGet property_keywords "" = [] from rfl] at hq
          simp at hq
        simp [hqne]

theorem c6_witness :
    propertyStage property_keywords "ein reihenhaus in berlin" ["Einfamilienhaus", "Reihenhaus"]
      = some "Reihenhaus" ∧
    propertyStage property_keywords "ein reihenhaus in berlin" [] = some "" ∧
    propertyStage property_keywords "nichts dergleichen" ["Reihenhaus"] = none := by
  refine ⟨?_, c6_property_classifier.1 "ein reihenhaus in berlin", ?_⟩
  · rw [c6_property_classifier.2 "ein reihenhaus in berlin" _ (by decide)]
    decide
  · rw [c6_property_classifier.2 "nichts dergleichen" _ (by decide)]
    decide

/-- C10: the structured-street pattern needs a non-empty non-digit
leading group, so an empty street or one that starts with a digit is
left unchanged with an empty house-number token. -/
theorem c10_digit_or_empty_street_unchanged :
    decomposeStreet "" = ("", "") ∧
    ∀ (s : String) (c : Char) (cs : List Char),
      s.toList = c :: cs → c.isDigit = true → decomposeStreet s = (s, "") := by
  constructor
  · rfl
  · intro s c cs hs hc
    unfold decomposeStreet
    rw [hs]
    simp [firstDigitIdx, hc]

theorem c10_witness : decomposeStreet "12 Hauptstrasse" = ("12 Hauptstrasse", "") :=
  c10_digit_or_empty_street_unchanged.2 "12 Hauptstrasse" '1'
    "2 Hauptstrasse".toList (by decide) (by decide)

theorem take_len_append {α : Type} (l₁ l₂ : List α) : (l₁ ++ l₂).take l₁.length = l₁ := by
  induction l₁ with
  | nil => rfl
  | cons a t ih => simp [ih]

theorem drop_len_append {α : Type} (l₁ l₂ : List α) : (l₁ ++ l₂).drop l₁.length = l₂ := by
  induction l₁ with
  | nil => rfl
  | cons a t ih => simp [ih]

/-- The first `\d` position in a list that starts with non-digits
followed by a digit. -/
theorem firstDigitIdx_append : ∀ (pre : List Char) (c : Char) (rest : List Char),
    (∀ x ∈ pre, x.isDigit = false) → c.isDigit = true →
    firstDigitIdx (pre ++ c :: rest) = some pre.length
  | [], c, rest, _, hc => by simp [firstDigitIdx, hc]
  | p :: ps, c, rest, hpre, hc => by
    have hp : p.isDigit = false := hpre p (by simp)
    have ihh := firstDigitIdx_append ps c rest (fun x hx => hpre x (by simp [hx])) hc
    simp [firstDigitIdx, hp, ihh]

theorem firstDigitIdx_none : ∀ l : List Char,
    (∀ x ∈ l, x.isDigit = false) → firstDigitIdx l = none
  | [], _ => rfl
  | c :: cs, h => by
    have hc : c.isDigit = false := h c (by simp)
    have ih := firstDigitIdx_none cs (fun x hx => h x (by simp [hx]))
    simp [firstDigitIdx, hc, ih]

/-- C7 (amended): (i) a structured street consisting of a non-empty
non-digit part followed by a digit-led remainder whose interior has no
newline is split into the trimmed non-digit part and the trimmed
remainder from the first digit on; (ii) a street with no digit at all
yields an empty house-number token (not a failure); (iii) postal code
and city pass through unchanged on the structured path; (iv) without a
structured address, the free-text location is comma-split, the trimmed
first segment is the street, the first whitespace token of the second
segment (if any) is the house-number token, and postal code and city
are left empty. -/
theorem c7_address_decomposition :
    (∀ (s : String) (pre : List Char) (c : Char) (rest : List Char),
      s.toList = pre ++ c :: rest → pre ≠ [] →
      (∀ x ∈ pre, x.isDigit = false) → c.isDigit = true →
      regexTailOk (c :: rest) = true →
      decomposeStreet s = (pyStrip (String.mk pre), pyStrip (String.mk (c :: rest)))) ∧
    (∀ s : String, (∀ x ∈ s.toList, x.isDigit = false) → (decomposeStreet s).2 = "") ∧
    (∀ (e : ObjektEntry) (a : Adresse), e.adresse = some a →
      (addressOf e).2.2.1 = a.plz.getD "" ∧ (addressOf e).2.2.2 = a.ort.getD "") ∧
    (∀ e : ObjektEntry, e.adresse = none →
      addressOf e =
        (pyStrip ((pySplitChar ',' (e.objekt_lage.getD "")).headD ""),
         (match pySplitChar ',' (e.objekt_lage.getD "") with
          | _ :: p1 :: _ => (pySplitWs (pyStrip p1)).headD ""
          | _ => ""),
         "", "")) := by
  refine ⟨?_, ?_, ?_, ?_⟩
  · intro s pre c rest hs hne hpre hc htail
    unfold decomposeStreet
    rw [hs, firstDigitIdx_append pre c rest hpre hc]
    cases pre with
    | nil => exact absurd rfl hne
    | cons p0 ps =>
      have htake : ((p0 :: ps) ++ c :: rest).take (ps.length + 1) = p0 :: ps :=
        take_len_append (p0 :: ps) (c :: rest)
      have hdrop : ((p0 :: ps) ++ c :: rest).drop (ps.length + 1) = c :: rest :=
        drop_len_append (p0 :: ps) (c :: rest)
      simp only [List.length_cons]
      rw [htake, hdrop, htail]
      rfl
  · intro s h
    unfold decomposeStreet
    rw [firstDigitIdx_none s.toList h]
    dsimp only
    split <;> rfl
  · intro e a ha
    unfold addressOf
    rw [ha]
    exact ⟨rfl, rfl⟩
  · intro e ha
    unfold addressOf
    rw [ha]
    cases hp : pySplitChar ',' (e.objekt_lage.getD "") with
    | nil => rfl
    | cons p0 rest =>
      cases rest with
      | nil => rfl
      | cons p1 t => rfl

/-- C7, counterexample: for the structured street `"Weg 1\nx"` the
pattern cannot match (`.` does not cross the interior newline and `$`
cannot stop before it), so the street is left whole and the
house-number token is empty — not the split
(`"Weg"`, `"1\nx"`) that the claim asserts for every structured
street. -/
theorem c7_counterexample :
    decomposeStreet "Weg 1\nx" = ("Weg 1\nx", "") ∧
    ¬ decomposeStreet "Weg 1\nx" = ("Weg", "1\nx") := by
  decide

theorem c7_witness :
    decomposeStreet "Hauptstr. 12" = ("Hauptstr.", "12") ∧
    (decomposeStreet "Hauptstrasse").2 = "" ∧
    addressOf ⟨"Z2", none, none, none, some "Marktplatz 3, 4 weitere", none, none⟩
      = ("Marktplatz 3", "4", "", "") := by
  refine ⟨?_, c7_address_decomposition.2.1 "Hauptstrasse" (by decide), ?_⟩
  · have h := c7_address_decomposition.1 "Hauptstr. 12"
      "Hauptstr. ".toList '1' ['2'] (by decide) (by decide) (by decide) (by decide) (by decide)
    simpa using h
  · have h := c7_address_decomposition.2.2.2
      ⟨"Z2", none, none, none, some "Marktplatz 3, 4 weitere", none, none⟩ rfl
    simpa using h

/-- C4: whenever the per-entry pipeline emits a listing with the
minimum date computed as `today + minDays` on the local clock, a valid
auction timestamp was determined for the entry (structured field
first, else free-text parse) and its calendar date is not earlier than
that minimum date. -/
theorem c4_emission_needs_valid_date (state : String) (ats pts : List String)
    (now : PyDateTime) (minDays : Int) (e : ObjektEntry) (l : Listing)
    (h : processEntry state ats pts (dateAddDays (dtDate now) minDays) e = some l) :
    ∃ dt, determineTimestamp e = some dt ∧
      dateLt (dtDate dt) (dateAddDays (dtDate now) minDays) = false := by
  unfold processEntry at h
  cases hd : determineTimestamp e with
  | none => rw [hd] at h; exact absurd h (by simp)
  | some dt =>
    rw [hd] at h
    dsimp only at h
    refine ⟨dt, rfl, ?_⟩
    by_contra hbt
    have hbt' : dateLt (dtDate dt) (dateAddDays (dtDate now) minDays) = true := by
      simpa using hbt
    rw [if_pos hbt'] at h
    exact absurd h (by simp)

theorem c4_witness :
    ∃ dt, determineTimestamp entryC4 = some dt ∧
      dateLt (dtDate dt) (dateAddDays (dtDate nowEx) 3) = false :=
  c4_emission_needs_valid_date "Bayern" [] [] nowEx 3 entryC4
    ⟨"Z1", "2030-01-01", "10:00", "", "", "", "", "Bayern", "", ""⟩ (by decide)

theorem c9_witness :
    GermanDateParser.parse "Montag, 07. Smarch 2025, 10:00 Uhr" = none :=
  c9_parser_examples.2.2 "Montag, 07. Smarch 2025, 10:00 Uhr" (by decide)
